import Mathlib

/-
Verification of the temporal-discretization engine (`Modeltime`) of
objects/util/base/source/model_time.cpp.

The C++ class `Modeltime` is embedded shallowly:
* machine `int` fields become `Int`;
* `std::vector<int>` fields become `List Int` (the `set` routine resizes each
  vector and then fills every slot with consecutive loop writes, which is
  modelled by building the list directly in the same order);
* the `std::map<int,int> yearToModelPeriod` becomes a function
  `Int → Option Int` (`none` = key absent); `m[k] = v` becomes `mapInsert`,
  and the reading use of `operator[]` in the data-period loop (which
  default-inserts 0 for an absent key) is modelled explicitly in `dataStep`;
* the logging collaborator is modelled by a list of emitted WARNING strings
  carried in the state, and by a Boolean "an ERROR was logged" component in
  the result of `getyr_to_per`;
* C++ `/` and `%` on `int` truncate toward zero, hence `Int.tdiv` / `Int.tmod`.
-/

/-- State of the C++ class `Modeltime`: configuration scalars plus the
derived discretization state computed by `Modeltime::set`.  Default values
are those of `initElementalMembers` (scalars zero) together with the
default-constructed containers (empty vectors / empty map). -/
structure Modeltime where
  startYear : Int := 0
  interYear1 : Int := 0
  interYear2 : Int := 0
  endYear : Int := 0
  dataEndYear : Int := 0
  maxPeriod : Int := 0
  maxDataPeriod : Int := 0
  dataTimeStep : Int := 0
  timeStep1 : Int := 0
  timeStep2 : Int := 0
  timeStep3 : Int := 0
  numberOfPeriods1 : Int := 0
  numberOfPeriods1a : Int := 0
  numberOfPeriods2 : Int := 0
  numberOfPeriods2a : Int := 0
  numberOfPeriods3 : Int := 0
  numberOfPeriods3a : Int := 0
  periodToTimeStep : List Int := []
  modelPeriodToYear : List Int := []
  yearToModelPeriod : Int → Option Int := fun _ => none
  dataOffset : List Int := []
  dataPeriodToModelPeriod : List Int := []
  warnings : List String := []

/-- The `std::map` assignment `f[k] = v`. -/
def mapInsert (f : Int → Option Int) (k v : Int) : Int → Option Int :=
  fun y => if y = k then some v else f y

/-- One iteration of the year-walk loop of `Modeltime::set`
(model_time.cpp lines 244-255).  The state is
`(baseyr, yearToModelPeriod, modelPeriodToYear)`; `i` is the loop index.
The body records `yearToModelPeriod[baseyr + periodToTimeStep[i]] = i` and
`modelPeriodToYear[i] = baseyr + periodToTimeStep[i]`, then (when the step
exceeds one year) maps every intermediate year `baseyr + y`,
`1 <= y < periodToTimeStep[i]`, to period `i`, and finally advances
`baseyr` by the step. -/
def walkStep (pts : List Int) (st : Int × (Int → Option Int) × List Int) (i : Nat) :
    Int × (Int → Option Int) × List Int :=
  let baseyr := st.1
  let step := pts.getD i 0
  let y2m := mapInsert st.2.1 (baseyr + step) (i : Int)
  let m2y := st.2.2 ++ [baseyr + step]
  let y2m' := if 1 < step then
      (List.range' 1 (step - 1).toNat).foldl
        (fun g (y : Nat) => mapInsert g (baseyr + (y : Int)) (i : Int)) y2m
    else y2m
  (baseyr + step, y2m', m2y)

/-- One iteration of the data-period loop of `Modeltime::set`
(model_time.cpp lines 262-271).  The state is
`(yearToModelPeriod, dataOffset, dataPeriodToModelPeriod)`.
`int m = yearToModelPeriod[startYear + i*dataTimeStep]` uses
`std::map::operator[]`, which default-inserts value `0` when the key is
absent; both behaviours (read of the present value, insertion of `0`) are
modelled here. -/
def dataStep (pts : List Int) (sY dT maxD maxP : Int)
    (st : (Int → Option Int) × List Int × List Int) (i : Nat) :
    (Int → Option Int) × List Int × List Int :=
  let year := sY + (i : Int) * dT
  let mv := st.1 year
  let mval : Int := mv.getD 0
  let y2m := match mv with
    | some _ => st.1
    | none => mapInsert st.1 year 0
  let off : Int := if maxD = maxP then 0 else dT.tdiv (pts.getD mval.toNat 0)
  (y2m, st.2.1 ++ [off], st.2.2 ++ [mval])

/-- Sum of the steps `pts.getD j 0` over loop indices `j = a, ..., a+t-1`. -/
def sumSteps (pts : List Int) (a t : Nat) : Int :=
  ((List.range' a t).map fun j => pts.getD j 0).sum

namespace Modeltime

/-- The `numberOfPeriods1 = (interYear1 - startYear)/timeStep1 + 1` (line 179,
"+1 for first year"). -/
def np1 (m : Modeltime) : Int := (m.interYear1 - m.startYear).tdiv m.timeStep1 + 1

/-- The `numberOfPeriods2 = (interYear2 - interYear1)/timeStep2` (line 180). -/
def np2 (m : Modeltime) : Int := (m.interYear2 - m.interYear1).tdiv m.timeStep2

/-- The `numberOfPeriods3 = (endYear - interYear2)/timeStep3` (line 181). -/
def np3 (m : Modeltime) : Int := (m.endYear - m.interYear2).tdiv m.timeStep3

/-- The `rem1 = (interYear1 - startYear)%timeStep1` (line 188). -/
def rem1 (m : Modeltime) : Int := (m.interYear1 - m.startYear).tmod m.timeStep1

/-- The `rem2 = (interYear2 - interYear1)%timeStep2` (line 189). -/
def rem2 (m : Modeltime) : Int := (m.interYear2 - m.interYear1).tmod m.timeStep2

/-- The `rem3 = (endYear - interYear2)%timeStep3` (line 190). -/
def rem3 (m : Modeltime) : Int := (m.endYear - m.interYear2).tmod m.timeStep3

/-- The `numberOfPeriods1a`, incremented once when `rem1 != 0` (lines 183, 192-193). -/
def np1a (m : Modeltime) : Int := if m.rem1 ≠ 0 then m.np1 + 1 else m.np1

/-- The `numberOfPeriods2a`, incremented once when `rem2 != 0` (lines 184, 198-199). -/
def np2a (m : Modeltime) : Int := if m.rem2 ≠ 0 then m.np2 + 1 else m.np2

/-- The `numberOfPeriods3a`, incremented once when `rem3 != 0` (lines 185, 204-205). -/
def np3a (m : Modeltime) : Int := if m.rem3 ≠ 0 then m.np3 + 1 else m.np3

/-- The `maxPeriod = numberOfPeriods1a + numberOfPeriods2a + numberOfPeriods3a`
(line 210). -/
def maxPeriodC (m : Modeltime) : Int := m.np1a + m.np2a + m.np3a

/-- The `maxDataPeriod = (dataEndYear - startYear)/dataTimeStep + 1` (line 212). -/
def maxDataPeriodC (m : Modeltime) : Int :=
  (m.dataEndYear - m.startYear).tdiv m.dataTimeStep + 1

/-- The `periodToTimeStep` vector (lines 215-234): the six consecutive fill
loops write `timeStep1` on `[0, numberOfPeriods1)`, `rem1` on
`[numberOfPeriods1, numberOfPeriods1a)`, `timeStep2` and `rem2` on the era-2
ranges, `timeStep3` and `rem3` on the era-3 ranges; the ranges are disjoint,
consecutive, and end exactly at `maxPeriod`, so the vector is the
concatenation of the six constant blocks. -/
def ptsC (m : Modeltime) : List Int :=
  List.replicate m.np1.toNat m.timeStep1
    ++ (List.replicate (m.np1a - m.np1).toNat m.rem1
    ++ (List.replicate m.np2.toNat m.timeStep2
    ++ (List.replicate (m.np2a - m.np2).toNat m.rem2
    ++ (List.replicate m.np3.toNat m.timeStep3
    ++ List.replicate (m.np3a - m.np3).toNat m.rem3))))

/-- The year-walk loop (lines 238-255): starting from
`yearToModelPeriod[startYear] = 0`, `modelPeriodToYear[0] = startYear` and
`baseyr = startYear`, iterate `walkStep` for `i = 1 .. maxPeriod-1`. -/
def walkC (m : Modeltime) : Int × (Int → Option Int) × List Int :=
  (List.range' 1 (m.maxPeriodC - 1).toNat).foldl (walkStep m.ptsC)
    (m.startYear, mapInsert m.yearToModelPeriod m.startYear 0, [m.startYear])

/-- The data-period loop (lines 262-271): iterate `dataStep` for
`i = 0 .. maxDataPeriod-1` on the map produced by the year walk. -/
def dataC (m : Modeltime) : (Int → Option Int) × List Int × List Int :=
  (List.range m.maxDataPeriodC.toNat).foldl
    (dataStep m.ptsC m.startYear m.dataTimeStep m.maxDataPeriodC m.maxPeriodC)
    ((m.walkC).2.1, [], [])

/-- The `Modeltime::set` (lines 177-272): computes all derived discretization
state from the configuration scalars.  The WARNING emitted for each
non-divisible era (lines 192-209) is appended to the warning log. -/
def set (m : Modeltime) : Modeltime :=
  { m with
    numberOfPeriods1 := m.np1
    numberOfPeriods2 := m.np2
    numberOfPeriods3 := m.np3
    numberOfPeriods1a := m.np1a
    numberOfPeriods2a := m.np2a
    numberOfPeriods3a := m.np3a
    maxPeriod := m.maxPeriodC
    maxDataPeriod := m.maxDataPeriodC
    periodToTimeStep := m.ptsC
    modelPeriodToYear := (m.walkC).2.2
    yearToModelPeriod := (m.dataC).1
    dataOffset := (m.dataC).2.1
    dataPeriodToModelPeriod := (m.dataC).2.2
    warnings := m.warnings
      ++ (if m.rem1 ≠ 0 then ["first time interval not divisible timeStep1"] else [])
      ++ (if m.rem2 ≠ 0 then ["Second time interval not divisible timeStep2"] else [])
      ++ (if m.rem3 ≠ 0 then ["Third time interval not divisible timeStep3"] else []) }

/-- The `Modeltime::getyr_to_per` (lines 290-300): look the year up in
`yearToModelPeriod`; on a miss, log an ERROR and return the sentinel period
`0`.  The second component records whether the ERROR was logged.  The C++
function is `const` and uses `map::find`, so it modifies nothing. -/
def getyr_to_per (m : Modeltime) (year : Int) : Int × Bool :=
  match m.yearToModelPeriod year with
  | none => (0, true)
  | some p => (p, false)

/-- The spec's name `yearToPeriod` for the period returned by
`Modeltime::getyr_to_per`. -/
def yearToPeriod (m : Modeltime) (year : Int) : Int := (m.getyr_to_per year).1

/-- Number of iterations of the year-walk loop, `maxPeriod - 1` clamped at 0. -/
def KC (m : Modeltime) : Nat := (m.maxPeriodC - 1).toNat

/-- The representative calendar year of period `j`: `startYear` advanced by
the steps of periods `1, ..., j`. -/
def yearOfIdx (m : Modeltime) (j : Nat) : Int := m.startYear + sumSteps m.ptsC 1 j

/-- The data-grid years `startYear + i*dataTimeStep` for `i < n`. -/
def dataKeys (sY dT : Int) (n : Nat) : List Int :=
  (List.range n).map (fun (i : Nat) => sY + (i : Int) * dT)

/-- The `Modeltime::getBasePeriod` (lines 275-277). -/
def getBasePeriod (m : Modeltime) : Int := m.yearToPeriod m.startYear

/-- The `Modeltime::getStartYear` (lines 280-282). -/
def getStartYear (m : Modeltime) : Int := m.startYear

/-- The `Modeltime::getEndYear` (lines 285-287). -/
def getEndYear (m : Modeltime) : Int := m.endYear

end Modeltime

/-- A valid configuration in the sense of the specification: strictly
increasing year boundaries, positive step lengths (including the data time
step), and a data end year not before the start year. -/
def ValidConfig (m : Modeltime) : Prop :=
  m.startYear < m.interYear1 ∧ m.interYear1 < m.interYear2 ∧
  m.interYear2 < m.endYear ∧ 0 < m.timeStep1 ∧ 0 < m.timeStep2 ∧
  0 < m.timeStep3 ∧ 0 < m.dataTimeStep ∧ m.startYear ≤ m.dataEndYear

instance (m : Modeltime) : Decidable (ValidConfig m) :=
  inferInstanceAs (Decidable (_ ∧ _ ∧ _ ∧ _ ∧ _ ∧ _ ∧ _ ∧ _))

/-- Scenario A of the specification. -/
def scenarioA : Modeltime :=
  { startYear := 1990, interYear1 := 2005, interYear2 := 2035, endYear := 2095,
    timeStep1 := 5, timeStep2 := 5, timeStep3 := 10,
    dataEndYear := 2005, dataTimeStep := 5 }

/-- Scenario B of the specification (uneven first era); the remaining
configuration scalars are filled in with arbitrary valid values, which the
era-1 quantities do not depend on. -/
def scenarioB : Modeltime :=
  { startYear := 2000, interYear1 := 2007, interYear2 := 2010, endYear := 2020,
    timeStep1 := 5, timeStep2 := 5, timeStep3 := 5,
    dataEndYear := 2005, dataTimeStep := 5 }

/-- A valid configuration whose data grid (step 2) is finer than the model
grid (step 5): every `dataOffset` entry is `2/5 = 0` by integer division
although the two grids do not coincide. -/
def gridMismatch : Modeltime :=
  { startYear := 2000, interYear1 := 2010, interYear2 := 2020, endYear := 2030,
    timeStep1 := 5, timeStep2 := 5, timeStep3 := 5,
    dataEndYear := 2004, dataTimeStep := 2 }

/-- A valid configuration with uniform steps and `dataEndYear = endYear`:
the data grid coincides with the model grid. -/
def uniformCfg : Modeltime :=
  { startYear := 2000, interYear1 := 2010, interYear2 := 2020, endYear := 2030,
    timeStep1 := 5, timeStep2 := 5, timeStep3 := 5,
    dataEndYear := 2030, dataTimeStep := 5 }

/-- Scenario A with `dataEndYear = 2100 > endYear = 2095`: the last data
year 2100 is absent from the map built by the year walk. -/
def scenarioAover : Modeltime :=
  { startYear := 1990, interYear1 := 2005, interYear2 := 2035, endYear := 2095,
    timeStep1 := 5, timeStep2 := 5, timeStep3 := 10,
    dataEndYear := 2100, dataTimeStep := 5 }


lemma sumSteps_zero (pts : List Int) (a : Nat) : sumSteps pts a 0 = 0 := rfl

lemma sumSteps_succ_left (pts : List Int) (a t : Nat) :
    sumSteps pts a (t + 1) = pts.getD a 0 + sumSteps pts (a + 1) t := by
  simp [sumSteps, List.range'_succ]

lemma sumSteps_succ_right (pts : List Int) (a t : Nat) :
    sumSteps pts a (t + 1) = sumSteps pts a t + pts.getD (a + t) 0 := by
  induction t generalizing a with
  | zero => simp [sumSteps_zero, sumSteps_succ_left]
  | succ t ih =>
      rw [sumSteps_succ_left, ih (a + 1), sumSteps_succ_left pts a t]
      have h : a + 1 + t = a + (t + 1) := by omega
      rw [h]
      ring

lemma sumSteps_eq_sum_take_drop (pts : List Int) :
    ∀ (t a : Nat), sumSteps pts a t = ((pts.drop a).take t).sum := by
  intro t
  induction t with
  | zero => simp [sumSteps_zero]
  | succ t ih =>
      intro a
      rw [sumSteps_succ_left, ih (a + 1)]
      by_cases h : a < pts.length
      · rw [List.drop_eq_getElem_cons h]
        rw [List.take_succ_cons, List.sum_cons]
        rw [List.getD_eq_getElem?_getD, List.getElem?_eq_getElem h]
        rfl
      · push_neg at h
        rw [List.drop_eq_nil_of_le h, List.drop_eq_nil_of_le (by omega)]
        rw [List.getD_eq_default _ _ (by omega)]
        simp

/-- Folding `mapInsert` with a fixed value `v` over the shifted keys
`B + k`, `k ∈ ks`: the result maps `y` to `v` exactly on those keys and is
unchanged elsewhere. -/
lemma foldl_mapInsert_shift (B v : Int) :
    ∀ (ks : List Nat) (f : Int → Option Int) (y : Int),
    (ks.foldl (fun g (k : Nat) => mapInsert g (B + (k : Int)) v) f) y
      = if ∃ k ∈ ks, y = B + (k : Int) then some v else f y := by
  intro ks
  induction ks with
  | nil => intro f y; simp
  | cons k ks ih =>
      intro f y
      rw [List.foldl_cons, ih]
      by_cases h1 : ∃ k' ∈ ks, y = B + (k' : Int)
      · rw [if_pos h1]
        obtain ⟨k', hk', hy⟩ := h1
        rw [if_pos ⟨k', List.mem_cons_of_mem _ hk', hy⟩]
      · rw [if_neg h1]
        by_cases h2 : y = B + (k : Int)
        · rw [if_pos ⟨k, List.mem_cons_self _ _, h2⟩]
          simp [mapInsert, h2]
        · have hno : ¬ ∃ k' ∈ k :: ks, y = B + (k' : Int) := by
            rintro ⟨k', hk', hy⟩
            rcases List.mem_cons.1 hk' with h | h
            · exact h2 (by rw [hy, h])
            · exact h1 ⟨k', h, hy⟩
          rw [if_neg hno]
          simp [mapInsert, h2]

/-- After one `walkStep`, the key `baseyr + step` is mapped to period `i`. -/
lemma walkStep_map_key (pts : List Int) (st : Int × (Int → Option Int) × List Int)
    (i : Nat) :
    (walkStep pts st i).2.1 (st.1 + pts.getD i 0) = some (i : Int) := by
  simp only [walkStep]
  by_cases hs : 1 < pts.getD i 0
  · rw [if_pos hs, foldl_mapInsert_shift]
    have hno : ¬ ∃ d ∈ List.range' 1 (pts.getD i 0 - 1).toNat,
        st.1 + pts.getD i 0 = st.1 + (d : Int) := by
      rintro ⟨d, hd, hy⟩
      rw [List.mem_range'_1] at hd
      have hd2 : (d : Int) ≤ pts.getD i 0 - 1 := by
        have h3 : (d : Int) ≤ (((pts.getD i 0 - 1).toNat : Nat) : Int) := by
          exact_mod_cast Nat.le_of_lt_succ (by omega)
        rwa [Int.toNat_of_nonneg (by omega)] at h3
      omega
    rw [if_neg hno]
    simp [mapInsert]
  · rw [if_neg hs]
    simp [mapInsert]

/-- After one `walkStep`, every intermediate year strictly between `baseyr`
and `baseyr + step` is mapped to period `i`. -/
lemma walkStep_map_between (pts : List Int) (st : Int × (Int → Option Int) × List Int)
    (i : Nat) (y : Int) (h1 : st.1 < y) (h2 : y < st.1 + pts.getD i 0) :
    (walkStep pts st i).2.1 y = some (i : Int) := by
  have hs : 1 < pts.getD i 0 := by omega
  simp only [walkStep]
  rw [if_pos hs, foldl_mapInsert_shift]
  have hyes : ∃ d ∈ List.range' 1 (pts.getD i 0 - 1).toNat, y = st.1 + (d : Int) := by
    refine ⟨(y - st.1).toNat, ?_, ?_⟩
    · rw [List.mem_range'_1]
      constructor
      · omega
      · have : (y - st.1).toNat ≤ (pts.getD i 0 - 1).toNat :=
          Int.toNat_le_toNat (by omega)
        omega
    · rw [Int.toNat_of_nonneg (by omega)]
      omega
  rw [if_pos hyes]

/-- A key outside `(baseyr, baseyr + step]` and different from
`baseyr + step` is untouched by one `walkStep`. -/
lemma walkStep_map_out (pts : List Int) (st : Int × (Int → Option Int) × List Int)
    (i : Nat) (y : Int) (hne : y ≠ st.1 + pts.getD i 0)
    (hout : y ≤ st.1 ∨ st.1 + pts.getD i 0 ≤ y) :
    (walkStep pts st i).2.1 y = st.2.1 y := by
  simp only [walkStep]
  by_cases hs : 1 < pts.getD i 0
  · rw [if_pos hs, foldl_mapInsert_shift]
    have hno : ¬ ∃ d ∈ List.range' 1 (pts.getD i 0 - 1).toNat, y = st.1 + (d : Int) := by
      rintro ⟨d, hd, hy⟩
      rw [List.mem_range'_1] at hd
      have hd2 : (d : Int) ≤ pts.getD i 0 - 1 := by
        have h3 : (d : Int) ≤ (((pts.getD i 0 - 1).toNat : Nat) : Int) := by
          exact_mod_cast Nat.le_of_lt_succ (by omega)
        rwa [Int.toNat_of_nonneg (by omega)] at h3
      have hd1 : 1 ≤ (d : Int) := by exact_mod_cast hd.1
      omega
    rw [if_neg hno]
    simp only [mapInsert]
    rw [if_neg hne]
  · rw [if_neg hs]
    simp only [mapInsert]
    rw [if_neg hne]

lemma walkStep_fst (pts : List Int) (st : Int × (Int → Option Int) × List Int)
    (i : Nat) : (walkStep pts st i).1 = st.1 + pts.getD i 0 := rfl

lemma walkStep_m2y (pts : List Int) (st : Int × (Int → Option Int) × List Int)
    (i : Nat) : (walkStep pts st i).2.2 = st.2.2 ++ [st.1 + pts.getD i 0] := rfl

/-- The running `baseyr` after walking periods `a, ..., a+t-1` has advanced
by the sum of their steps. -/
lemma walk_foldl_fst (pts : List Int) :
    ∀ (t a : Nat) (st : Int × (Int → Option Int) × List Int),
    ((List.range' a t).foldl (walkStep pts) st).1 = st.1 + sumSteps pts a t := by
  intro t
  induction t with
  | zero => intro a st; simp [sumSteps_zero]
  | succ t ih =>
      intro a st
      rw [List.range'_succ, List.foldl_cons, ih (a + 1) (walkStep pts st a),
        walkStep_fst, sumSteps_succ_left]
      ring

/-- The `modelPeriodToYear` entries appended while walking periods
`a, ..., a+t-1`: entry for period `j` is the initial `baseyr` advanced by
the steps of periods `a, ..., j`. -/
lemma walk_foldl_m2y (pts : List Int) :
    ∀ (t a : Nat) (st : Int × (Int → Option Int) × List Int),
    ((List.range' a t).foldl (walkStep pts) st).2.2
      = st.2.2 ++ (List.range' a t).map (fun j => st.1 + sumSteps pts a (j + 1 - a)) := by
  intro t
  induction t with
  | zero => intro a st; simp
  | succ t ih =>
      intro a st
      rw [List.range'_succ, List.foldl_cons, ih (a + 1) (walkStep pts st a),
        walkStep_m2y, walkStep_fst]
      have harith : ∀ j ∈ List.range' (a + 1) t,
          (fun j => (st.1 + pts.getD a 0) + sumSteps pts (a + 1) (j + 1 - (a + 1))) j
            = (fun j => st.1 + sumSteps pts a (j + 1 - a)) j := by
        intro j hj
        rw [List.mem_range'_1] at hj
        have h1 : j + 1 - a = (j - a) + 1 := by omega
        have h2 : j + 1 - (a + 1) = j - a := by omega
        simp only [h1, h2, sumSteps_succ_left]
        ring
      rw [List.map_congr_left harith]
      have hsum1 : sumSteps pts a (a + 1 - a) = pts.getD a 0 := by
        have h0 : a + 1 - a = 0 + 1 := by omega
        rw [h0, sumSteps_succ_left, sumSteps_zero, add_zero]
      simp only [List.map_cons]
      rw [hsum1, List.append_assoc, List.singleton_append]

/-- Walking periods `a, ..., a+t-1` with positive steps never touches a map
key at or below the starting `baseyr`. -/
lemma walk_foldl_low (pts : List Int) :
    ∀ (t a : Nat) (st : Int × (Int → Option Int) × List Int) (y : Int),
    (∀ j ∈ List.range' a t, 0 < pts.getD j 0) → y ≤ st.1 →
    ((List.range' a t).foldl (walkStep pts) st).2.1 y = st.2.1 y := by
  intro t
  induction t with
  | zero => intro a st y _ _; simp
  | succ t ih =>
      intro a st y hpos hy
      have hpa : 0 < pts.getD a 0 := by
        refine hpos a ?_
        rw [List.mem_range'_1]
        omega
      have hpos' : ∀ j ∈ List.range' (a + 1) t, 0 < pts.getD j 0 := by
        intro j hj
        rw [List.mem_range'_1] at hj
        refine hpos j ?_
        rw [List.mem_range'_1]
        omega
      rw [List.range'_succ, List.foldl_cons,
        ih (a + 1) (walkStep pts st a) y hpos' (by rw [walkStep_fst]; omega),
        walkStep_map_out pts st a y (by omega) (Or.inl hy)]

/-- After walking periods `1, ..., K` with positive steps, every year in the
half-open interval `(year of period i-1, year of period i]` is mapped to
period `i`, for `1 ≤ i ≤ K`. -/
lemma walk_foldl_interval (pts : List Int) (K : Nat)
    (st : Int × (Int → Option Int) × List Int)
    (hpos : ∀ j ∈ List.range' 1 K, 0 < pts.getD j 0)
    (i : Nat) (h1 : 1 ≤ i) (hiK : i ≤ K) (y : Int)
    (hy1 : st.1 + sumSteps pts 1 (i - 1) < y)
    (hy2 : y ≤ st.1 + sumSteps pts 1 i) :
    ((List.range' 1 K).foldl (walkStep pts) st).2.1 y = some (i : Int) := by
  have hsplit : List.range' 1 K
      = List.range' 1 (i - 1) ++ i :: List.range' (i + 1) (K - i) := by
    have h2 := List.range'_append 1 (i - 1) (K - (i - 1)) 1
    have e1 : 1 + 1 * (i - 1) = i := by omega
    have e2 : K - (i - 1) + (i - 1) = K := by omega
    have e3 : K - (i - 1) = (K - i) + 1 := by omega
    rw [e1, e2, e3, List.range'_succ] at h2
    exact h2.symm
  rw [hsplit, List.foldl_append, List.foldl_cons]
  have hb1 : ((List.range' 1 (i - 1)).foldl (walkStep pts) st).1
      = st.1 + sumSteps pts 1 (i - 1) := walk_foldl_fst pts (i - 1) 1 st
  have hstep : sumSteps pts 1 i = sumSteps pts 1 (i - 1) + pts.getD i 0 := by
    have h2 := sumSteps_succ_right pts 1 (i - 1)
    have e1 : i - 1 + 1 = i := by omega
    have e2 : 1 + (i - 1) = i := by omega
    rwa [e1, e2] at h2
  set st1 := (List.range' 1 (i - 1)).foldl (walkStep pts) st with hst1
  have hpos' : ∀ j ∈ List.range' (i + 1) (K - i), 0 < pts.getD j 0 := by
    intro j hj
    rw [List.mem_range'_1] at hj
    refine hpos j ?_
    rw [List.mem_range'_1]
    omega
  have hle : y ≤ (walkStep pts st1 i).1 := by
    rw [walkStep_fst, hb1]
    omega
  rw [walk_foldl_low pts (K - i) (i + 1) (walkStep pts st1 i) y hpos' hle]
  rcases lt_or_eq_of_le hy2 with hlt | heq
  · exact walkStep_map_between pts st1 i y (by omega) (by rw [hb1]; omega)
  · have hkey : y = st1.1 + pts.getD i 0 := by rw [hb1]; omega
    rw [hkey]
    exact walkStep_map_key pts st1 i

namespace Modeltime

lemma np1_pos (m : Modeltime) (h : ValidConfig m) : 1 ≤ m.np1 := by
  obtain ⟨hv1, hv2, hv3, hv4, hv5, hv6, hv7, hv8⟩ := h
  have h1 : 0 ≤ (m.interYear1 - m.startYear).tdiv m.timeStep1 :=
    Int.tdiv_nonneg (by omega) (by omega)
  unfold np1
  omega

lemma np2_nonneg (m : Modeltime) (h : ValidConfig m) : 0 ≤ m.np2 := by
  obtain ⟨hv1, hv2, hv3, hv4, hv5, hv6, hv7, hv8⟩ := h
  exact Int.tdiv_nonneg (by omega) (by omega)

lemma np3_nonneg (m : Modeltime) (h : ValidConfig m) : 0 ≤ m.np3 := by
  obtain ⟨hv1, hv2, hv3, hv4, hv5, hv6, hv7, hv8⟩ := h
  exact Int.tdiv_nonneg (by omega) (by omega)

lemma np1a_bounds (m : Modeltime) : m.np1 ≤ m.np1a ∧ m.np1a ≤ m.np1 + 1 := by
  unfold np1a
  by_cases h : m.rem1 ≠ 0 <;> simp [h]

lemma np2a_bounds (m : Modeltime) : m.np2 ≤ m.np2a ∧ m.np2a ≤ m.np2 + 1 := by
  unfold np2a
  by_cases h : m.rem2 ≠ 0 <;> simp [h]

lemma np3a_bounds (m : Modeltime) : m.np3 ≤ m.np3a ∧ m.np3a ≤ m.np3 + 1 := by
  unfold np3a
  by_cases h : m.rem3 ≠ 0 <;> simp [h]

lemma rem1_nonneg (m : Modeltime) (h : ValidConfig m) : 0 ≤ m.rem1 := by
  obtain ⟨hv1, hv2, hv3, hv4, hv5, hv6, hv7, hv8⟩ := h
  exact Int.tmod_nonneg _ (by omega)

lemma rem2_nonneg (m : Modeltime) (h : ValidConfig m) : 0 ≤ m.rem2 := by
  obtain ⟨hv1, hv2, hv3, hv4, hv5, hv6, hv7, hv8⟩ := h
  exact Int.tmod_nonneg _ (by omega)

lemma rem3_nonneg (m : Modeltime) (h : ValidConfig m) : 0 ≤ m.rem3 := by
  obtain ⟨hv1, hv2, hv3, hv4, hv5, hv6, hv7, hv8⟩ := h
  exact Int.tmod_nonneg _ (by omega)

lemma np1a_sub_np1 (m : Modeltime) : (m.np1a - m.np1) * m.rem1 = m.rem1 := by
  unfold np1a
  by_cases h : m.rem1 ≠ 0
  · simp [h]
  · push_neg at h
    simp [h]

lemma np2a_sub_np2 (m : Modeltime) : (m.np2a - m.np2) * m.rem2 = m.rem2 := by
  unfold np2a
  by_cases h : m.rem2 ≠ 0
  · simp [h]
  · push_neg at h
    simp [h]

lemma np3a_sub_np3 (m : Modeltime) : (m.np3a - m.np3) * m.rem3 = m.rem3 := by
  unfold np3a
  by_cases h : m.rem3 ≠ 0
  · simp [h]
  · push_neg at h
    simp [h]

lemma era1_span (m : Modeltime) :
    m.np1 * m.timeStep1 + m.rem1 = m.interYear1 - m.startYear + m.timeStep1 := by
  have h := Int.tdiv_add_tmod (m.interYear1 - m.startYear) m.timeStep1
  unfold np1 rem1
  calc ((m.interYear1 - m.startYear).tdiv m.timeStep1 + 1) * m.timeStep1
        + (m.interYear1 - m.startYear).tmod m.timeStep1
      = (m.timeStep1 * (m.interYear1 - m.startYear).tdiv m.timeStep1
          + (m.interYear1 - m.startYear).tmod m.timeStep1) + m.timeStep1 := by ring
    _ = m.interYear1 - m.startYear + m.timeStep1 := by rw [h]

lemma era2_span (m : Modeltime) :
    m.np2 * m.timeStep2 + m.rem2 = m.interYear2 - m.interYear1 := by
  have h := Int.tdiv_add_tmod (m.interYear2 - m.interYear1) m.timeStep2
  unfold np2 rem2
  calc (m.interYear2 - m.interYear1).tdiv m.timeStep2 * m.timeStep2
        + (m.interYear2 - m.interYear1).tmod m.timeStep2
      = m.timeStep2 * (m.interYear2 - m.interYear1).tdiv m.timeStep2
          + (m.interYear2 - m.interYear1).tmod m.timeStep2 := by ring
    _ = m.interYear2 - m.interYear1 := h

lemma era3_span (m : Modeltime) :
    m.np3 * m.timeStep3 + m.rem3 = m.endYear - m.interYear2 := by
  have h := Int.tdiv_add_tmod (m.endYear - m.interYear2) m.timeStep3
  unfold np3 rem3
  calc (m.endYear - m.interYear2).tdiv m.timeStep3 * m.timeStep3
        + (m.endYear - m.interYear2).tmod m.timeStep3
      = m.timeStep3 * (m.endYear - m.interYear2).tdiv m.timeStep3
          + (m.endYear - m.interYear2).tmod m.timeStep3 := by ring
    _ = m.endYear - m.interYear2 := h

lemma maxPeriodC_pos (m : Modeltime) (h : ValidConfig m) : 1 ≤ m.maxPeriodC := by
  have h1 := m.np1_pos h
  have h2 := m.np2_nonneg h
  have h3 := m.np3_nonneg h
  have h4 := m.np1a_bounds
  have h5 := m.np2a_bounds
  have h6 := m.np3a_bounds
  unfold maxPeriodC
  omega

lemma pts_length (m : Modeltime) (h : ValidConfig m) :
    (m.ptsC).length = (m.maxPeriodC).toNat := by
  have h1 := m.np1_pos h
  have h2 := m.np2_nonneg h
  have h3 := m.np3_nonneg h
  have h4 := m.np1a_bounds
  have h5 := m.np2a_bounds
  have h6 := m.np3a_bounds
  unfold ptsC maxPeriodC
  simp only [List.length_append, List.length_replicate]
  omega

lemma pts_sum (m : Modeltime) (h : ValidConfig m) :
    (m.ptsC).sum = m.endYear - m.startYear + m.timeStep1 := by
  have h1 := m.np1_pos h
  have h2 := m.np2_nonneg h
  have h3 := m.np3_nonneg h
  have h4 := m.np1a_bounds
  have h5 := m.np2a_bounds
  have h6 := m.np3a_bounds
  have e1 := m.era1_span
  have e2 := m.era2_span
  have e3 := m.era3_span
  have r1 := m.np1a_sub_np1
  have r2 := m.np2a_sub_np2
  have r3 := m.np3a_sub_np3
  unfold ptsC
  simp only [List.sum_append, List.sum_replicate, nsmul_eq_mul]
  rw [Int.toNat_of_nonneg (by omega), Int.toNat_of_nonneg (by omega),
    Int.toNat_of_nonneg (by omega), Int.toNat_of_nonneg (by omega),
    Int.toNat_of_nonneg (by omega), Int.toNat_of_nonneg (by omega)]
  linarith

lemma pts_pos (m : Modeltime) (h : ValidConfig m) : ∀ x ∈ m.ptsC, 0 < x := by
  intro x hx
  have hr1 := m.rem1_nonneg h
  have hr2 := m.rem2_nonneg h
  have hr3 := m.rem3_nonneg h
  obtain ⟨hv1, hv2, hv3, hv4, hv5, hv6, hv7, hv8⟩ := h
  unfold ptsC at hx
  simp only [List.mem_append, List.mem_replicate] at hx
  rcases hx with ⟨-, hx⟩ | ⟨hb, hx⟩ | ⟨-, hx⟩ | ⟨hb, hx⟩ | ⟨-, hx⟩ | ⟨hb, hx⟩
  · subst hx; omega
  · subst hx
    have hne : m.rem1 ≠ 0 := by
      intro h0
      apply hb
      unfold np1a
      simp [h0]
    omega
  · subst hx; omega
  · subst hx
    have hne : m.rem2 ≠ 0 := by
      intro h0
      apply hb
      unfold np2a
      simp [h0]
    omega
  · subst hx; omega
  · subst hx
    have hne : m.rem3 ≠ 0 := by
      intro h0
      apply hb
      unfold np3a
      simp [h0]
    omega

lemma pts_getD_pos (m : Modeltime) (h : ValidConfig m) (j : Nat)
    (hj : j < (m.maxPeriodC).toNat) : 0 < (m.ptsC).getD j 0 := by
  have hlen : j < (m.ptsC).length := by rw [m.pts_length h]; exact hj
  rw [List.getD_eq_getElem?_getD, List.getElem?_eq_getElem hlen]
  exact m.pts_pos h _ (List.getElem_mem hlen)

lemma pts_head (m : Modeltime) (h : ValidConfig m) :
    (m.ptsC).getD 0 0 = m.timeStep1 := by
  have h1 := m.np1_pos h
  unfold ptsC
  rw [List.getD_eq_getElem?_getD, List.getElem?_append,
    if_pos (by rw [List.length_replicate]; omega), List.getElem?_replicate,
    if_pos (by omega)]
  rfl

lemma pts_getD_rem1 (m : Modeltime) (h : ValidConfig m) (hne : m.rem1 ≠ 0) :
    (m.ptsC).getD m.np1.toNat 0 = m.rem1 := by
  have h1 := m.np1_pos h
  have hb : (m.np1a - m.np1).toNat = 1 := by
    unfold np1a
    rw [if_pos hne]
    omega
  unfold ptsC
  rw [List.getD_eq_getElem?_getD,
    List.getElem?_append, if_neg (by rw [List.length_replicate]; omega),
    List.length_replicate,
    List.getElem?_append, if_pos (by rw [List.length_replicate]; omega),
    List.getElem?_replicate, if_pos (by omega)]
  rfl

lemma pts_getD_rem2 (m : Modeltime) (h : ValidConfig m) (hne : m.rem2 ≠ 0) :
    (m.ptsC).getD (m.np1a + m.np2).toNat 0 = m.rem2 := by
  have h1 := m.np1_pos h
  have h2 := m.np2_nonneg h
  have h4 := m.np1a_bounds
  have hb : (m.np2a - m.np2).toNat = 1 := by
    unfold np2a
    rw [if_pos hne]
    omega
  unfold ptsC
  rw [List.getD_eq_getElem?_getD,
    List.getElem?_append, if_neg (by rw [List.length_replicate]; omega),
    List.length_replicate,
    List.getElem?_append, if_neg (by rw [List.length_replicate]; omega),
    List.length_replicate,
    List.getElem?_append, if_neg (by rw [List.length_replicate]; omega),
    List.length_replicate,
    List.getElem?_append, if_pos (by rw [List.length_replicate]; omega),
    List.getElem?_replicate, if_pos (by omega)]
  rfl

lemma pts_getD_rem3 (m : Modeltime) (h : ValidConfig m) (hne : m.rem3 ≠ 0) :
    (m.ptsC).getD (m.np1a + m.np2a + m.np3).toNat 0 = m.rem3 := by
  have h1 := m.np1_pos h
  have h2 := m.np2_nonneg h
  have h3 := m.np3_nonneg h
  have h4 := m.np1a_bounds
  have h5 := m.np2a_bounds
  have hb : (m.np3a - m.np3).toNat = 1 := by
    unfold np3a
    rw [if_pos hne]
    omega
  unfold ptsC
  rw [List.getD_eq_getElem?_getD,
    List.getElem?_append, if_neg (by rw [List.length_replicate]; omega),
    List.length_replicate,
    List.getElem?_append, if_neg (by rw [List.length_replicate]; omega),
    List.length_replicate,
    List.getElem?_append, if_neg (by rw [List.length_replicate]; omega),
    List.length_replicate,
    List.getElem?_append, if_neg (by rw [List.length_replicate]; omega),
    List.length_replicate,
    List.getElem?_append, if_neg (by rw [List.length_replicate]; omega),
    List.length_replicate,
    List.getElem?_replicate, if_pos (by omega)]
  rfl

lemma yearOfIdx_zero (m : Modeltime) : m.yearOfIdx 0 = m.startYear := by
  unfold yearOfIdx
  rw [sumSteps_zero, add_zero]

lemma yearOfIdx_succ (m : Modeltime) (j : Nat) :
    m.yearOfIdx (j + 1) = m.yearOfIdx j + (m.ptsC).getD (j + 1) 0 := by
  unfold yearOfIdx
  have h := sumSteps_succ_right m.ptsC 1 j
  rw [Nat.add_comm 1 j] at h
  rw [h]
  ring

lemma KC_succ (m : Modeltime) (h : ValidConfig m) :
    m.KC + 1 = (m.maxPeriodC).toNat := by
  have h1 := m.maxPeriodC_pos h
  unfold KC
  omega

lemma yearOfIdx_lt_succ (m : Modeltime) (h : ValidConfig m) (j : Nat)
    (hj : j + 1 < (m.maxPeriodC).toNat) : m.yearOfIdx j < m.yearOfIdx (j + 1) := by
  have hp := m.pts_getD_pos h (j + 1) hj
  rw [m.yearOfIdx_succ j]
  omega

lemma yearOfIdx_last (m : Modeltime) (h : ValidConfig m) :
    m.yearOfIdx m.KC = m.endYear := by
  have hlen : (m.ptsC).length = (m.maxPeriodC).toNat := m.pts_length h
  have hK : m.KC + 1 = (m.maxPeriodC).toNat := m.KC_succ h
  have hlen0 : 0 < (m.ptsC).length := by omega
  have hcons : m.ptsC = (m.ptsC).getD 0 0 :: (m.ptsC).drop 1 := by
    have hd := List.drop_eq_getElem_cons hlen0
    rw [List.drop_zero] at hd
    rw [List.getD_eq_getElem?_getD, List.getElem?_eq_getElem hlen0]
    exact hd
  have hsplit : (m.ptsC).sum = (m.ptsC).getD 0 0 + ((m.ptsC).drop 1).sum := by
    conv_lhs => rw [hcons]
    rw [List.sum_cons]
  have hdroplen : ((m.ptsC).drop 1).length = m.KC := by
    rw [List.length_drop]
    omega
  unfold yearOfIdx
  rw [sumSteps_eq_sum_take_drop, List.take_of_length_le (by omega)]
  have hsum := m.pts_sum h
  have hhead := m.pts_head h
  rw [hhead] at hsplit
  rw [hsum] at hsplit
  omega

lemma walkC_map_interval (m : Modeltime) (h : ValidConfig m) (i : Nat)
    (h1 : 1 ≤ i) (hi : i < (m.maxPeriodC).toNat) (y : Int)
    (hy1 : m.yearOfIdx (i - 1) < y) (hy2 : y ≤ m.yearOfIdx i) :
    (m.walkC).2.1 y = some (i : Int) := by
  have hK : m.KC + 1 = (m.maxPeriodC).toNat := m.KC_succ h
  have hpos : ∀ j ∈ List.range' 1 m.KC, 0 < (m.ptsC).getD j 0 := by
    intro j hj
    rw [List.mem_range'_1] at hj
    exact m.pts_getD_pos h j (by omega)
  exact walk_foldl_interval m.ptsC m.KC
    (m.startYear, mapInsert m.yearToModelPeriod m.startYear 0, [m.startYear])
    hpos i h1 (by omega) y hy1 hy2

lemma walkC_map_year (m : Modeltime) (h : ValidConfig m) (i : Nat)
    (h1 : 1 ≤ i) (hi : i < (m.maxPeriodC).toNat) :
    (m.walkC).2.1 (m.yearOfIdx i) = some (i : Int) := by
  refine m.walkC_map_interval h i h1 hi _ ?_ le_rfl
  have he : i = (i - 1) + 1 := by omega
  conv_rhs => rw [he]
  exact m.yearOfIdx_lt_succ h (i - 1) (by omega)

lemma walkC_map_start (m : Modeltime) (h : ValidConfig m) :
    (m.walkC).2.1 m.startYear = some 0 := by
  have hpos : ∀ j ∈ List.range' 1 m.KC, 0 < (m.ptsC).getD j 0 := by
    intro j hj
    rw [List.mem_range'_1] at hj
    have hK : m.KC + 1 = (m.maxPeriodC).toNat := m.KC_succ h
    exact m.pts_getD_pos h j (by omega)
  show ((List.range' 1 m.KC).foldl (walkStep m.ptsC)
      (m.startYear, mapInsert m.yearToModelPeriod m.startYear 0, [m.startYear])).2.1
      m.startYear = some 0
  rw [walk_foldl_low m.ptsC m.KC 1
    (m.startYear, mapInsert m.yearToModelPeriod m.startYear 0, [m.startYear])
    m.startYear hpos le_rfl]
  simp [mapInsert]

lemma walkC_m2y (m : Modeltime) :
    (m.walkC).2.2 = (List.range (m.KC + 1)).map m.yearOfIdx := by
  show ((List.range' 1 m.KC).foldl (walkStep m.ptsC)
      (m.startYear, mapInsert m.yearToModelPeriod m.startYear 0, [m.startYear])).2.2
      = (List.range (m.KC + 1)).map m.yearOfIdx
  rw [walk_foldl_m2y]
  show [m.startYear] ++ (List.range' 1 m.KC).map
      (fun j => m.startYear + sumSteps m.ptsC 1 (j + 1 - 1))
      = (List.range (m.KC + 1)).map m.yearOfIdx
  have hcongr : ∀ j ∈ List.range' 1 m.KC,
      (fun j => m.startYear + sumSteps m.ptsC 1 (j + 1 - 1)) j
        = (fun j => m.yearOfIdx j) j := by
    intro j _
    have he : j + 1 - 1 = j := by omega
    simp only [he]
    rfl
  rw [List.map_congr_left hcongr]
  simp [List.range_eq_range', List.range'_succ, m.yearOfIdx_zero]

/-- Entry `i` of `modelPeriodToYear` (as a `getD` lookup). -/
lemma walkC_m2y_getD (m : Modeltime) (h : ValidConfig m) (i : Nat)
    (hi : i < (m.maxPeriodC).toNat) :
    ((m.walkC).2.2).getD i 0 = m.yearOfIdx i := by
  have hK : m.KC + 1 = (m.maxPeriodC).toNat := m.KC_succ h
  rw [m.walkC_m2y, List.getD_eq_getElem?_getD, List.getElem?_map,
    List.getElem?_range (by omega)]
  rfl

lemma dataKeys_succ (sY dT : Int) (n : Nat) :
    dataKeys sY dT (n + 1) = dataKeys sY dT n ++ [sY + (n : Int) * dT] := by
  unfold dataKeys
  rw [List.range_succ, List.map_append]
  rfl

/-- Characterization of the data-period loop.  Its map inserts `0` exactly at
the absent data-grid keys; its `dataOffset` and `dataPeriodToModelPeriod`
outputs are pointwise functions of the incoming map `f` at the data-grid
years (the value read by `operator[]` is the present value, or the
default-inserted `0`). -/
lemma data_foldl (pts : List Int) (sY dT maxD maxP : Int) (f : Int → Option Int) :
    ∀ (n : Nat),
    (∀ y : Int, ((List.range n).foldl (dataStep pts sY dT maxD maxP) (f, [], [])).1 y
        = match f y with
          | some v => some v
          | none => if y ∈ dataKeys sY dT n then some 0 else none)
    ∧ ((List.range n).foldl (dataStep pts sY dT maxD maxP) (f, [], [])).2.1
        = (List.range n).map (fun (i : Nat) =>
            if maxD = maxP then 0
            else dT.tdiv (pts.getD ((f (sY + (i : Int) * dT)).getD 0).toNat 0))
    ∧ ((List.range n).foldl (dataStep pts sY dT maxD maxP) (f, [], [])).2.2
        = (List.range n).map (fun (i : Nat) => ((f (sY + (i : Int) * dT)).getD 0 : Int)) := by
  intro n
  induction n with
  | zero =>
      refine ⟨?_, rfl, rfl⟩
      intro y
      cases hfy : f y <;> simp [dataKeys, hfy]
  | succ n ih =>
      obtain ⟨ihm, iho, ihd⟩ := ih
      have hfold : (List.range (n + 1)).foldl (dataStep pts sY dT maxD maxP) (f, [], [])
          = dataStep pts sY dT maxD maxP
              ((List.range n).foldl (dataStep pts sY dT maxD maxP) (f, [], [])) n := by
        rw [List.range_succ, List.foldl_append, List.foldl_cons, List.foldl_nil]
      set F := (List.range n).foldl (dataStep pts sY dT maxD maxP) (f, [], []) with hF
      have hmval : (F.1 (sY + (n : Int) * dT)).getD 0
          = (f (sY + (n : Int) * dT)).getD 0 := by
        rw [ihm]
        cases hfy : f (sY + (n : Int) * dT) with
        | some v => rfl
        | none =>
            by_cases hex : (sY + (n : Int) * dT) ∈ dataKeys sY dT n
            · rw [if_pos hex]
              rfl
            · rw [if_neg hex]
      refine ⟨?_, ?_, ?_⟩
      · intro y
        rw [hfold]
        show (match F.1 (sY + (n : Int) * dT) with
              | some _ => F.1
              | none => mapInsert F.1 (sY + (n : Int) * dT) 0) y
            = match f y with
              | some v => some v
              | none => if y ∈ dataKeys sY dT (n + 1) then some 0 else none
        cases hv : F.1 (sY + (n : Int) * dT) with
        | some w =>
            show F.1 y = _
            rw [ihm y]
            cases hfy : f y with
            | some v => rfl
            | none =>
                by_cases hexn : y ∈ dataKeys sY dT n
                · rw [if_pos hexn]
                  have hexs : y ∈ dataKeys sY dT (n + 1) := by
                    rw [dataKeys_succ]
                    exact List.mem_append_left _ hexn
                  rw [if_pos hexs]
                · rw [if_neg hexn]
                  have hyne : y ≠ sY + (n : Int) * dT := by
                    intro he
                    rw [ihm] at hv
                    rw [← he, hfy, if_neg (by rwa [he] at hexn ⊢)] at hv
                    exact Option.noConfusion hv
                  have hnone : y ∉ dataKeys sY dT (n + 1) := by
                    rw [dataKeys_succ]
                    intro hmem
                    rcases List.mem_append.1 hmem with hmem1 | hmem2
                    · exact hexn hmem1
                    · exact hyne (List.mem_singleton.1 hmem2)
                  rw [if_neg hnone]
        | none =>
            show mapInsert F.1 (sY + (n : Int) * dT) 0 y = _
            by_cases hy : y = sY + (n : Int) * dT
            · have hfy : f (sY + (n : Int) * dT) = none := by
                cases hfy : f (sY + (n : Int) * dT) with
                | none => rfl
                | some v =>
                    rw [ihm, hfy] at hv
                    exact Option.noConfusion hv
              rw [hy]
              simp only [mapInsert, if_pos rfl]
              rw [hfy]
              have hexs : (sY + (n : Int) * dT) ∈ dataKeys sY dT (n + 1) := by
                rw [dataKeys_succ]
                exact List.mem_append_right _ (List.mem_singleton.2 rfl)
              rw [if_pos hexs]
              simp
            · simp only [mapInsert]
              rw [if_neg hy, ihm y]
              cases hfy : f y with
              | some v => rfl
              | none =>
                  by_cases hexn : y ∈ dataKeys sY dT n
                  · rw [if_pos hexn]
                    have hexs : y ∈ dataKeys sY dT (n + 1) := by
                      rw [dataKeys_succ]
                      exact List.mem_append_left _ hexn
                    rw [if_pos hexs]
                  · rw [if_neg hexn]
                    have hnone : y ∉ dataKeys sY dT (n + 1) := by
                      rw [dataKeys_succ]
                      intro hmem
                      rcases List.mem_append.1 hmem with hmem1 | hmem2
                      · exact hexn hmem1
                      · exact hy (List.mem_singleton.1 hmem2)
                    rw [if_neg hnone]
      · rw [hfold]
        show F.2.1 ++ [if maxD = maxP then 0
            else dT.tdiv (pts.getD ((F.1 (sY + (n : Int) * dT)).getD 0).toNat 0)] = _
        rw [hmval, iho, List.range_succ, List.map_append]
        rfl
      · rw [hfold]
        show F.2.2 ++ [(F.1 (sY + (n : Int) * dT)).getD 0] = _
        rw [hmval, ihd, List.range_succ, List.map_append]
        rfl

lemma set_startYear (m : Modeltime) : (m.set).startYear = m.startYear := rfl

lemma set_endYear (m : Modeltime) : (m.set).endYear = m.endYear := rfl

lemma set_maxPeriod (m : Modeltime) : (m.set).maxPeriod = m.maxPeriodC := rfl

lemma set_maxDataPeriod (m : Modeltime) :
    (m.set).maxDataPeriod = m.maxDataPeriodC := rfl

lemma set_periodToTimeStep (m : Modeltime) :
    (m.set).periodToTimeStep = m.ptsC := rfl

lemma set_modelPeriodToYear (m : Modeltime) :
    (m.set).modelPeriodToYear = (m.walkC).2.2 := rfl

/-- After `set`, the year map is the walk map extended with a default `0`
entry at every data-grid year that the walk left absent. -/
lemma set_yearToModelPeriod_eq (m : Modeltime) (y : Int) :
    (m.set).yearToModelPeriod y
      = match (m.walkC).2.1 y with
        | some v => some v
        | none => if y ∈ dataKeys m.startYear m.dataTimeStep (m.maxDataPeriodC).toNat
            then some 0 else none :=
  (data_foldl m.ptsC m.startYear m.dataTimeStep m.maxDataPeriodC m.maxPeriodC
    (m.walkC).2.1 (m.maxDataPeriodC).toNat).1 y

lemma set_yearToModelPeriod_of_some (m : Modeltime) (y v : Int)
    (h : (m.walkC).2.1 y = some v) : (m.set).yearToModelPeriod y = some v := by
  rw [m.set_yearToModelPeriod_eq y, h]

lemma set_dataOffset_eq (m : Modeltime) :
    (m.set).dataOffset = (List.range (m.maxDataPeriodC).toNat).map
      (fun (i : Nat) =>
        if m.maxDataPeriodC = m.maxPeriodC then 0
        else m.dataTimeStep.tdiv ((m.ptsC).getD
          (((m.walkC).2.1 (m.startYear + (i : Int) * m.dataTimeStep)).getD 0).toNat 0)) :=
  (data_foldl m.ptsC m.startYear m.dataTimeStep m.maxDataPeriodC m.maxPeriodC
    (m.walkC).2.1 (m.maxDataPeriodC).toNat).2.1

lemma set_dataPeriodToModelPeriod_eq (m : Modeltime) :
    (m.set).dataPeriodToModelPeriod = (List.range (m.maxDataPeriodC).toNat).map
      (fun (i : Nat) =>
        ((((m.walkC).2.1 (m.startYear + (i : Int) * m.dataTimeStep)).getD 0 : Int))) :=
  (data_foldl m.ptsC m.startYear m.dataTimeStep m.maxDataPeriodC m.maxPeriodC
    (m.walkC).2.1 (m.maxDataPeriodC).toNat).2.2

lemma getyr_to_per_of_some (m : Modeltime) (y p : Int)
    (h : m.yearToModelPeriod y = some p) : m.getyr_to_per y = (p, false) := by
  unfold getyr_to_per
  rw [h]

lemma getyr_to_per_of_none (m : Modeltime) (y : Int)
    (h : m.yearToModelPeriod y = none) : m.getyr_to_per y = (0, true) := by
  unfold getyr_to_per
  rw [h]

end Modeltime

/-- C1, corrected.  `Modeltime::set` computes
`numberOfPeriods1 = (interYear1 - startYear)/timeStep1 + 1` (the `+1`
accounts for the base period at `startYear`), while `numberOfPeriods2` and
`numberOfPeriods3` are the bare integer quotients.  Consequently scenario B
(`startYear=2000, interYear1=2007, timeStep1=5`) yields
`numberOfPeriods1 = 2` and `numberOfPeriods1a = 3`, and scenario A has 4
era-1 periods (not 3).  (C++ `/` on positive operands is `Int.tdiv`.) -/
theorem C1_era_counts (m : Modeltime) :
    (m.set).numberOfPeriods1 = (m.interYear1 - m.startYear).tdiv m.timeStep1 + 1 ∧
    (m.set).numberOfPeriods2 = (m.interYear2 - m.interYear1).tdiv m.timeStep2 ∧
    (m.set).numberOfPeriods3 = (m.endYear - m.interYear2).tdiv m.timeStep3 ∧
    (Modeltime.set scenarioB).numberOfPeriods1 = 2 ∧
    (Modeltime.set scenarioB).numberOfPeriods1a = 3 ∧
    (Modeltime.set scenarioA).numberOfPeriods1 = 4 ∧
    (Modeltime.set scenarioA).numberOfPeriods1a = 4 :=
  ⟨rfl, rfl, rfl, by decide, by decide, by decide, by decide⟩

/-- C1 counterexample: the claim's exact-division formula
`numberOfPeriods1 == (interYear1 - startYear) / timeStep1` fails on
scenario B, where the quotient is 1 but the code stores 2 (and
`numberOfPeriods1a` is 3, not 2). -/
theorem C1_counterexample :
    ((2007 : Int) - 2000).tdiv 5 = 1 ∧
    (Modeltime.set scenarioB).numberOfPeriods1 ≠ ((2007 : Int) - 2000).tdiv 5 ∧
    (Modeltime.set scenarioB).numberOfPeriods1a ≠ 2 ∧
    (Modeltime.set scenarioA).numberOfPeriods1 ≠ 3 := by
  refine ⟨by decide, by decide, by decide, by decide⟩

/-- C2, corrected.  The sum of all `periodToTimeStep` entries is
`endYear - startYear + timeStep1`, because entry 0 (the base period, which
does not advance the running year) also holds `timeStep1`; the entries from
index 1 on sum exactly to `endYear - startYear`. -/
theorem C2_step_sum (m : Modeltime) (h : ValidConfig m) :
    ((m.set).periodToTimeStep).sum = m.endYear - m.startYear + m.timeStep1 ∧
    (((m.set).periodToTimeStep).drop 1).sum = m.endYear - m.startYear := by
  constructor
  · rw [m.set_periodToTimeStep]
    exact m.pts_sum h
  · rw [m.set_periodToTimeStep]
    have hlen : (m.ptsC).length = (m.maxPeriodC).toNat := m.pts_length h
    have hpos : 1 ≤ m.maxPeriodC := m.maxPeriodC_pos h
    have hlen0 : 0 < (m.ptsC).length := by omega
    have hcons : m.ptsC = (m.ptsC).getD 0 0 :: (m.ptsC).drop 1 := by
      have hd := List.drop_eq_getElem_cons hlen0
      rw [List.drop_zero] at hd
      rw [List.getD_eq_getElem?_getD, List.getElem?_eq_getElem hlen0]
      exact hd
    have hsplit : (m.ptsC).sum = (m.ptsC).getD 0 0 + ((m.ptsC).drop 1).sum := by
      conv_lhs => rw [hcons]
      rw [List.sum_cons]
    rw [m.pts_sum h, m.pts_head h] at hsplit
    omega

/-- C2 counterexample: on scenario A the periodToTimeStep entries sum to
110, not `endYear - startYear = 105` (the difference is `timeStep1 = 5`,
the step stored for the non-advancing base period). -/
theorem C2_counterexample :
    ((Modeltime.set scenarioA).periodToTimeStep).sum = 110 ∧
    scenarioA.endYear - scenarioA.startYear = 105 := by
  refine ⟨by decide, by decide⟩

/-- C2 witness: scenario A is a valid configuration and its step sum is
`endYear - startYear + timeStep1`. -/
theorem C2_step_sum_witness :
    ValidConfig scenarioA ∧
    ((Modeltime.set scenarioA).periodToTimeStep).sum
      = scenarioA.endYear - scenarioA.startYear + scenarioA.timeStep1 :=
  ⟨by decide, (C2_step_sum scenarioA (by decide)).1⟩

/-- C3, confirmed.  After `set`, `modelPeriodToYear` has `maxPeriod`
entries, starts at `startYear`, is strictly increasing, and its last entry
is exactly `endYear` (even when a nominal step does not evenly divide its
era, thanks to the remainder periods). -/
theorem C3_year_schedule (m : Modeltime) (h : ValidConfig m) :
    (m.set).modelPeriodToYear.length = ((m.set).maxPeriod).toNat ∧
    (m.set).modelPeriodToYear.getD 0 0 = m.startYear ∧
    (∀ i : Nat, i + 1 < ((m.set).maxPeriod).toNat →
      (m.set).modelPeriodToYear.getD i 0 < (m.set).modelPeriodToYear.getD (i + 1) 0) ∧
    (m.set).modelPeriodToYear.getD (((m.set).maxPeriod).toNat - 1) 0 = m.endYear := by
  have hK := m.KC_succ h
  refine ⟨?_, ?_, ?_, ?_⟩
  · rw [m.set_modelPeriodToYear, m.walkC_m2y, List.length_map, List.length_range,
      m.set_maxPeriod, hK]
  · rw [m.set_modelPeriodToYear, m.walkC_m2y_getD h 0 (by omega), m.yearOfIdx_zero]
  · intro i hi
    rw [m.set_maxPeriod] at hi
    rw [m.set_modelPeriodToYear, m.walkC_m2y_getD h i (by omega),
      m.walkC_m2y_getD h (i + 1) hi]
    exact m.yearOfIdx_lt_succ h i hi
  · rw [m.set_modelPeriodToYear, m.set_maxPeriod]
    have he : (m.maxPeriodC).toNat - 1 = m.KC := by omega
    rw [he, m.walkC_m2y_getD h m.KC (by omega), m.yearOfIdx_last h]

/-- C3 witness: on scenario A the schedule has 16 entries, starts at 1990,
grows at indices 0 and 14, and ends at 2095. -/
theorem C3_year_schedule_witness :
    (Modeltime.set scenarioA).modelPeriodToYear.getD 0 0 = scenarioA.startYear ∧
    (Modeltime.set scenarioA).modelPeriodToYear.getD
      (((Modeltime.set scenarioA).maxPeriod).toNat - 1) 0 = scenarioA.endYear ∧
    (Modeltime.set scenarioA).modelPeriodToYear.getD 14 0
      < (Modeltime.set scenarioA).modelPeriodToYear.getD 15 0 :=
  ⟨(C3_year_schedule scenarioA (by decide)).2.1,
   (C3_year_schedule scenarioA (by decide)).2.2.2,
   (C3_year_schedule scenarioA (by decide)).2.2.1 14 (by decide)⟩

/-- C4, confirmed.  Round-trip: for every valid configuration and every
period index `i < maxPeriod`, `yearToPeriod(modelPeriodToYear[i]) = i`. -/
theorem C4_round_trip (m : Modeltime) (h : ValidConfig m) (i : Nat)
    (hi : i < ((m.set).maxPeriod).toNat) :
    (m.set).yearToPeriod ((m.set).modelPeriodToYear.getD i 0) = (i : Int) := by
  rw [m.set_maxPeriod] at hi
  rw [m.set_modelPeriodToYear, m.walkC_m2y_getD h i hi]
  rcases Nat.eq_zero_or_pos i with h0 | h1
  · subst h0
    rw [m.yearOfIdx_zero]
    have hset := m.set_yearToModelPeriod_of_some m.startYear 0 (m.walkC_map_start h)
    unfold Modeltime.yearToPeriod
    rw [(m.set).getyr_to_per_of_some m.startYear 0 hset]
    simp
  · have hmap := m.walkC_map_year h i h1 hi
    have hset := m.set_yearToModelPeriod_of_some (m.yearOfIdx i) (i : Int) hmap
    unfold Modeltime.yearToPeriod
    rw [(m.set).getyr_to_per_of_some (m.yearOfIdx i) (i : Int) hset]

/-- C4 witness: on scenario A, period 15's year (2095) maps back to 15. -/
theorem C4_round_trip_witness :
    (Modeltime.set scenarioA).yearToPeriod
      ((Modeltime.set scenarioA).modelPeriodToYear.getD 15 0) = 15 :=
  C4_round_trip scenarioA (by decide) 15 (by decide)

/-- C5, confirmed.  Forward attribution: for a period `i ≥ 1` whose step
exceeds one year, every intermediate calendar year strictly between
`modelPeriodToYear[i-1]` and `modelPeriodToYear[i]` is mapped to the later
period `i`. -/
theorem C5_forward_attribution (m : Modeltime) (h : ValidConfig m) (i : Nat)
    (h1 : 1 ≤ i) (hi : i < ((m.set).maxPeriod).toNat)
    (hstep : 1 < (m.set).periodToTimeStep.getD i 0) (y : Int)
    (hy1 : (m.set).modelPeriodToYear.getD (i - 1) 0 < y)
    (hy2 : y < (m.set).modelPeriodToYear.getD i 0) :
    (m.set).yearToModelPeriod y = some (i : Int) := by
  rw [m.set_maxPeriod] at hi
  rw [m.set_modelPeriodToYear, m.walkC_m2y_getD h (i - 1) (by omega)] at hy1
  rw [m.set_modelPeriodToYear, m.walkC_m2y_getD h i hi] at hy2
  exact m.set_yearToModelPeriod_of_some y (i : Int)
    (m.walkC_map_interval h i h1 hi y hy1 (le_of_lt hy2))

/-- C5 witness: on scenario A the year 2040 lies strictly between period
9's year (2035) and period 10's year (2045) and is attributed to period 10. -/
theorem C5_forward_attribution_witness :
    (Modeltime.set scenarioA).yearToModelPeriod 2040 = some 10 :=
  C5_forward_attribution scenarioA (by decide) 10 (by decide) (by decide)
    (by decide) 2040 (by decide) (by decide)

/-- Entry lookup in a list built by mapping over `List.range`. -/
lemma getD_map_range {α : Type} (f : Nat → α) (n i : Nat) (d : α) :
    ((List.range n).map f).getD i d = if i < n then f i else d := by
  rw [List.getD_eq_getElem?_getD, List.getElem?_map]
  by_cases h : i < n
  · rw [List.getElem?_range h, if_pos h]
    rfl
  · rw [List.getElem?_eq_none (by simpa using h), if_neg h]
    rfl

namespace Modeltime

lemma set_numberOfPeriods1 (m : Modeltime) : (m.set).numberOfPeriods1 = m.np1 := rfl

lemma set_numberOfPeriods1a (m : Modeltime) : (m.set).numberOfPeriods1a = m.np1a := rfl

lemma set_numberOfPeriods2 (m : Modeltime) : (m.set).numberOfPeriods2 = m.np2 := rfl

lemma set_numberOfPeriods2a (m : Modeltime) : (m.set).numberOfPeriods2a = m.np2a := rfl

lemma set_numberOfPeriods3 (m : Modeltime) : (m.set).numberOfPeriods3 = m.np3 := rfl

lemma set_numberOfPeriods3a (m : Modeltime) : (m.set).numberOfPeriods3a = m.np3a := rfl

lemma set_warnings (m : Modeltime) : (m.set).warnings = m.warnings
    ++ (if m.rem1 ≠ 0 then ["first time interval not divisible timeStep1"] else [])
    ++ (if m.rem2 ≠ 0 then ["Second time interval not divisible timeStep2"] else [])
    ++ (if m.rem3 ≠ 0 then ["Third time interval not divisible timeStep3"] else []) := rfl

end Modeltime

/-- C6, confirmed.  `Modeltime::getyr_to_per` on a year absent from
`yearToModelPeriod` logs an ERROR (second component `true`) and returns the
sentinel period `0`; on a present year it returns the mapped period with no
ERROR.  It is a pure function of the state (the C++ method is `const` and
uses `map::find`), so no state is modified and nothing is thrown.  On
scenario A's configuration, 1800 is absent, so the lookup logs an ERROR and
returns 0. -/
theorem C6_sentinel_on_miss :
    (∀ (m : Modeltime) (y : Int),
      (m.yearToModelPeriod y = none → m.getyr_to_per y = (0, true)) ∧
      (∀ p : Int, m.yearToModelPeriod y = some p → m.getyr_to_per y = (p, false))) ∧
    (Modeltime.set scenarioA).yearToModelPeriod 1800 = none ∧
    (Modeltime.set scenarioA).getyr_to_per 1800 = (0, true) :=
  ⟨fun m y => ⟨m.getyr_to_per_of_none y, fun p => m.getyr_to_per_of_some y p⟩,
   by decide, by decide⟩

/-- C6 witness: the general lookup-miss rule applied to year 1800 on
scenario A. -/
theorem C6_sentinel_on_miss_witness :
    (Modeltime.set scenarioA).getyr_to_per 1800 = (0, true) :=
  (C6_sentinel_on_miss.1 (Modeltime.set scenarioA) 1800).1 (by decide)

/-- C7, confirmed.  For each era: an evenly divisible span adds no
remainder period (`numberOfPeriodsNa = numberOfPeriodsN`); a non-zero
remainder adds exactly one extra period, placed directly after that era's
full-step periods, whose effective step in `periodToTimeStep` equals the
remainder, and the corresponding WARNING is logged. -/
theorem C7_remainder_mechanism (m : Modeltime) (h : ValidConfig m) :
    ((m.rem1 = 0 → (m.set).numberOfPeriods1a = (m.set).numberOfPeriods1) ∧
     (m.rem1 ≠ 0 → (m.set).numberOfPeriods1a = (m.set).numberOfPeriods1 + 1 ∧
       (m.set).periodToTimeStep.getD ((m.set).numberOfPeriods1).toNat 0 = m.rem1 ∧
       "first time interval not divisible timeStep1" ∈ (m.set).warnings)) ∧
    ((m.rem2 = 0 → (m.set).numberOfPeriods2a = (m.set).numberOfPeriods2) ∧
     (m.rem2 ≠ 0 → (m.set).numberOfPeriods2a = (m.set).numberOfPeriods2 + 1 ∧
       (m.set).periodToTimeStep.getD
         ((m.set).numberOfPeriods1a + (m.set).numberOfPeriods2).toNat 0 = m.rem2 ∧
       "Second time interval not divisible timeStep2" ∈ (m.set).warnings)) ∧
    ((m.rem3 = 0 → (m.set).numberOfPeriods3a = (m.set).numberOfPeriods3) ∧
     (m.rem3 ≠ 0 → (m.set).numberOfPeriods3a = (m.set).numberOfPeriods3 + 1 ∧
       (m.set).periodToTimeStep.getD
         ((m.set).numberOfPeriods1a + (m.set).numberOfPeriods2a
           + (m.set).numberOfPeriods3).toNat 0 = m.rem3 ∧
       "Third time interval not divisible timeStep3" ∈ (m.set).warnings)) := by
  simp only [m.set_numberOfPeriods1, m.set_numberOfPeriods1a, m.set_numberOfPeriods2,
    m.set_numberOfPeriods2a, m.set_numberOfPeriods3, m.set_numberOfPeriods3a,
    m.set_periodToTimeStep]
  refine ⟨⟨?_, ?_⟩, ⟨?_, ?_⟩, ⟨?_, ?_⟩⟩
  · intro h0
    unfold Modeltime.np1a
    simp [h0]
  · intro hne
    refine ⟨by unfold Modeltime.np1a; rw [if_pos hne], m.pts_getD_rem1 h hne, ?_⟩
    rw [m.set_warnings]
    simp [hne]
  · intro h0
    unfold Modeltime.np2a
    simp [h0]
  · intro hne
    refine ⟨by unfold Modeltime.np2a; rw [if_pos hne], m.pts_getD_rem2 h hne, ?_⟩
    rw [m.set_warnings]
    simp [hne]
  · intro h0
    unfold Modeltime.np3a
    simp [h0]
  · intro hne
    refine ⟨by unfold Modeltime.np3a; rw [if_pos hne], m.pts_getD_rem3 h hne, ?_⟩
    rw [m.set_warnings]
    simp [hne]

/-- C7 witness: scenario B's era 1 has remainder 2, so one extra period is
added at index `numberOfPeriods1` with effective step 2, and the WARNING is
logged; its era 3 is evenly divisible, adding no extra period. -/
theorem C7_remainder_mechanism_witness :
    scenarioB.rem1 ≠ 0 ∧
    ((Modeltime.set scenarioB).numberOfPeriods1a
        = (Modeltime.set scenarioB).numberOfPeriods1 + 1 ∧
      (Modeltime.set scenarioB).periodToTimeStep.getD
        ((Modeltime.set scenarioB).numberOfPeriods1).toNat 0 = scenarioB.rem1 ∧
      "first time interval not divisible timeStep1"
        ∈ (Modeltime.set scenarioB).warnings) ∧
    ((Modeltime.set scenarioB).numberOfPeriods3a
        = (Modeltime.set scenarioB).numberOfPeriods3) :=
  ⟨by decide,
   (C7_remainder_mechanism scenarioB (by decide)).1.2 (by decide),
   (C7_remainder_mechanism scenarioB (by decide)).2.2.1 (by decide)⟩

namespace Modeltime

lemma pts_uniform (m : Modeltime) (h : ValidConfig m)
    (h1 : m.timeStep1 = m.dataTimeStep) (h2 : m.timeStep2 = m.dataTimeStep)
    (h3 : m.timeStep3 = m.dataTimeStep)
    (hr1 : m.rem1 = 0) (hr2 : m.rem2 = 0) (hr3 : m.rem3 = 0) :
    m.ptsC = List.replicate (m.maxPeriodC).toNat m.dataTimeStep := by
  have hn1 := m.np1_pos h
  have hn2 := m.np2_nonneg h
  have hn3 := m.np3_nonneg h
  have hb1 : (m.np1a - m.np1).toNat = 0 := by
    unfold np1a
    simp [hr1]
  have hb2 : (m.np2a - m.np2).toNat = 0 := by
    unfold np2a
    simp [hr2]
  have hb3 : (m.np3a - m.np3).toNat = 0 := by
    unfold np3a
    simp [hr3]
  unfold ptsC
  rw [hb1, hb2, hb3, List.replicate_zero, List.replicate_zero, List.replicate_zero,
    List.nil_append, List.nil_append, List.append_nil, h1, h2, h3,
    ← List.replicate_add, ← List.replicate_add]
  congr 1
  unfold maxPeriodC np1a np2a np3a
  simp only [hr1, hr2, hr3, ne_eq, not_true_eq_false, if_false]
  omega

lemma maxD_eq_maxP_uniform (m : Modeltime) (h : ValidConfig m)
    (h1 : m.timeStep1 = m.dataTimeStep) (h2 : m.timeStep2 = m.dataTimeStep)
    (h3 : m.timeStep3 = m.dataTimeStep) (hdE : m.dataEndYear = m.endYear)
    (hr1 : m.rem1 = 0) (hr2 : m.rem2 = 0) (hr3 : m.rem3 = 0) :
    m.maxDataPeriodC = m.maxPeriodC := by
  obtain ⟨hv1, hv2, hv3, hv4, hv5, hv6, hv7, hv8⟩ := h
  have ha1 : m.np1a = m.np1 := by
    unfold np1a
    simp [hr1]
  have ha2 : m.np2a = m.np2 := by
    unfold np2a
    simp [hr2]
  have ha3 : m.np3a = m.np3 := by
    unfold np3a
    simp [hr3]
  have htm1 : (m.interYear1 - m.startYear).tmod m.dataTimeStep = 0 := by
    have h0 := hr1
    unfold rem1 at h0
    rwa [h1] at h0
  have htm2 : (m.interYear2 - m.interYear1).tmod m.dataTimeStep = 0 := by
    have h0 := hr2
    unfold rem2 at h0
    rwa [h2] at h0
  have htm3 : (m.endYear - m.interYear2).tmod m.dataTimeStep = 0 := by
    have h0 := hr3
    unfold rem3 at h0
    rwa [h3] at h0
  have q1 := Int.tdiv_add_tmod (m.interYear1 - m.startYear) m.dataTimeStep
  have q2 := Int.tdiv_add_tmod (m.interYear2 - m.interYear1) m.dataTimeStep
  have q3 := Int.tdiv_add_tmod (m.endYear - m.interYear2) m.dataTimeStep
  rw [htm1, add_zero] at q1
  rw [htm2, add_zero] at q2
  rw [htm3, add_zero] at q3
  have hspan : m.endYear - m.startYear
      = m.dataTimeStep * ((m.interYear1 - m.startYear).tdiv m.dataTimeStep
        + (m.interYear2 - m.interYear1).tdiv m.dataTimeStep
        + (m.endYear - m.interYear2).tdiv m.dataTimeStep) := by
    rw [mul_add, mul_add, q1, q2, q3]
    ring
  unfold maxDataPeriodC maxPeriodC
  rw [ha1, ha2, ha3]
  unfold np1 np2 np3
  rw [h1, h2, h3, hdE, hspan,
    Int.mul_tdiv_cancel_left _ (by omega : m.dataTimeStep ≠ 0)]
  ring

lemma yearOfIdx_uniform (m : Modeltime) (h : ValidConfig m)
    (hpts : m.ptsC = List.replicate (m.maxPeriodC).toNat m.dataTimeStep) :
    ∀ (i : Nat), i ≤ m.KC → m.yearOfIdx i = m.startYear + (i : Int) * m.dataTimeStep := by
  have hK := m.KC_succ h
  intro i
  induction i with
  | zero =>
      intro _
      rw [m.yearOfIdx_zero]
      simp
  | succ i ih =>
      intro hi
      rw [m.yearOfIdx_succ i, ih (by omega), hpts, List.getD_eq_getElem?_getD,
        List.getElem?_replicate, if_pos (by omega), Option.getD_some]
      push_cast
      ring
end Modeltime

/-- C8, corrected.  If `maxDataPeriod = maxPeriod` every `dataOffset` entry
is 0; otherwise entry `i` is `dataTimeStep / periodToTimeStep[m]` with
`m = dataPeriodToModelPeriod[i]` — but integer division can make those
entries 0 as well, so "all offsets 0" holds *if*, not *exactly when*, the
grid cardinalities agree.  When the steps are uniform
(`timeStep1 = timeStep2 = timeStep3 = dataTimeStep`), every era divides
evenly and `dataEndYear = endYear`, the grids coincide:
`maxDataPeriod = maxPeriod`, all offsets are 0 and
`dataPeriodToModelPeriod[i] = i`. -/
theorem C8_data_alignment (m : Modeltime) (h : ValidConfig m) :
    ((m.set).maxDataPeriod = (m.set).maxPeriod →
      ∀ i : Nat, (m.set).dataOffset.getD i 0 = 0) ∧
    ((m.set).maxDataPeriod ≠ (m.set).maxPeriod →
      ∀ i : Nat, i < ((m.set).maxDataPeriod).toNat →
        (m.set).dataOffset.getD i 0 = m.dataTimeStep.tdiv
          ((m.set).periodToTimeStep.getD
            (((m.set).dataPeriodToModelPeriod.getD i 0).toNat) 0)) ∧
    (m.timeStep1 = m.dataTimeStep → m.timeStep2 = m.dataTimeStep →
     m.timeStep3 = m.dataTimeStep → m.dataEndYear = m.endYear →
     m.rem1 = 0 → m.rem2 = 0 → m.rem3 = 0 →
      ((m.set).maxDataPeriod = (m.set).maxPeriod ∧
       ∀ i : Nat, i < ((m.set).maxDataPeriod).toNat →
         (m.set).dataOffset.getD i 0 = 0 ∧
         (m.set).dataPeriodToModelPeriod.getD i 0 = (i : Int))) := by
  refine ⟨?_, ?_, ?_⟩
  · intro heq i
    have heq' : m.maxDataPeriodC = m.maxPeriodC := heq
    rw [m.set_dataOffset_eq, getD_map_range]
    by_cases hi : i < (m.maxDataPeriodC).toNat
    · rw [if_pos hi, if_pos heq']
    · rw [if_neg hi]
  · intro hne i hi
    have hne' : ¬ m.maxDataPeriodC = m.maxPeriodC := hne
    have hi' : i < (m.maxDataPeriodC).toNat := hi
    rw [m.set_dataOffset_eq, getD_map_range, if_pos hi', if_neg hne',
      m.set_dataPeriodToModelPeriod_eq, getD_map_range, if_pos hi',
      m.set_periodToTimeStep]
  · intro h1 h2 h3 hdE hr1 hr2 hr3
    have hpts := m.pts_uniform h h1 h2 h3 hr1 hr2 hr3
    have hmax := m.maxD_eq_maxP_uniform h h1 h2 h3 hdE hr1 hr2 hr3
    have hK := m.KC_succ h
    refine ⟨hmax, ?_⟩
    intro i hi
    have hi' : i < (m.maxDataPeriodC).toNat := hi
    have hiK : i ≤ m.KC := by
      have : (m.maxDataPeriodC).toNat = (m.maxPeriodC).toNat := by rw [hmax]
      omega
    have hyear := m.yearOfIdx_uniform h hpts i hiK
    constructor
    · rw [m.set_dataOffset_eq, getD_map_range, if_pos hi', if_pos hmax]
    · rw [m.set_dataPeriodToModelPeriod_eq, getD_map_range, if_pos hi']
      rcases Nat.eq_zero_or_pos i with h0 | hpos
      · subst h0
        have hkey : m.startYear + ((0 : Nat) : Int) * m.dataTimeStep = m.startYear := by
          simp
        rw [hkey, m.walkC_map_start h]
        rfl
      · have hkey : m.startYear + (i : Int) * m.dataTimeStep = m.yearOfIdx i :=
          hyear.symm
        rw [hkey, m.walkC_map_year h i hpos (by omega)]
        rfl

/-- C8 counterexample: on `gridMismatch` (data step 2 against model step 5)
every `dataOffset` entry is 0 while `maxDataPeriod = 3 ≠ 7 = maxPeriod`,
refuting the claimed "exactly when". -/
theorem C8_counterexample :
    ValidConfig gridMismatch ∧
    (∀ x ∈ (Modeltime.set gridMismatch).dataOffset, x = 0) ∧
    (Modeltime.set gridMismatch).maxDataPeriod = 3 ∧
    (Modeltime.set gridMismatch).maxPeriod = 7 :=
  ⟨by decide, by decide, by decide, by decide⟩

/-- C8 witness: the coinciding-grids case applied to `uniformCfg` at data
period 3. -/
theorem C8_data_alignment_witness :
    (Modeltime.set uniformCfg).maxDataPeriod = (Modeltime.set uniformCfg).maxPeriod ∧
    (Modeltime.set uniformCfg).dataOffset.getD 3 0 = 0 ∧
    (Modeltime.set uniformCfg).dataPeriodToModelPeriod.getD 3 0 = 3 :=
  ⟨((C8_data_alignment uniformCfg (by decide)).2.2 (by decide) (by decide) (by decide)
      (by decide) (by decide) (by decide) (by decide)).1,
   (((C8_data_alignment uniformCfg (by decide)).2.2 (by decide) (by decide) (by decide)
      (by decide) (by decide) (by decide) (by decide)).2 3 (by decide)).1,
   (((C8_data_alignment uniformCfg (by decide)).2.2 (by decide) (by decide) (by decide)
      (by decide) (by decide) (by decide) (by decide)).2 3 (by decide)).2⟩

/-- C10, confirmed (implicit).  In the data-alignment loop, a data-grid
year absent from the walk-built map is silently inserted with value 0 by
`operator[]` itself: afterwards the map holds `some 0` at that year,
`dataPeriodToModelPeriod[i]` is 0, and a later `getyr_to_per` on that year
returns 0 *without* logging an ERROR.  Concretely, on scenario A with
`dataEndYear = 2100`, data period 22 (year 2100 > endYear) maps to 0 right
after entry 21 maps to 15, breaking monotonicity. -/
theorem C10_silent_default_insert :
    (∀ (m : Modeltime) (i : Nat), i < (m.maxDataPeriodC).toNat →
      (m.walkC).2.1 (m.startYear + (i : Int) * m.dataTimeStep) = none →
      ((m.set).yearToModelPeriod (m.startYear + (i : Int) * m.dataTimeStep) = some 0 ∧
       (m.set).dataPeriodToModelPeriod.getD i 0 = 0 ∧
       (m.set).getyr_to_per (m.startYear + (i : Int) * m.dataTimeStep) = (0, false))) ∧
    (Modeltime.set scenarioAover).dataPeriodToModelPeriod.getD 21 0 = 15 ∧
    (Modeltime.set scenarioAover).dataPeriodToModelPeriod.getD 22 0 = 0 ∧
    (Modeltime.set scenarioAover).yearToModelPeriod 2100 = some 0 ∧
    (Modeltime.set scenarioAover).getyr_to_per 2100 = (0, false) := by
  refine ⟨?_, by decide, by decide, by decide, by decide⟩
  intro m i hi hnone
  have hmem : (m.startYear + (i : Int) * m.dataTimeStep)
      ∈ Modeltime.dataKeys m.startYear m.dataTimeStep (m.maxDataPeriodC).toNat := by
    unfold Modeltime.dataKeys
    exact List.mem_map.2 ⟨i, List.mem_range.2 hi, rfl⟩
  have hmap : (m.set).yearToModelPeriod (m.startYear + (i : Int) * m.dataTimeStep)
      = some 0 := by
    rw [m.set_yearToModelPeriod_eq, hnone, if_pos hmem]
  refine ⟨hmap, ?_, (m.set).getyr_to_per_of_some _ 0 hmap⟩
  rw [m.set_dataPeriodToModelPeriod_eq, getD_map_range, if_pos hi, hnone]
  rfl

/-- C10 witness: the general silent-insert rule applied to scenario A with
`dataEndYear = 2100` at data period 22 (year 2100). -/
theorem C10_silent_default_insert_witness :
    (Modeltime.set scenarioAover).yearToModelPeriod
        (scenarioAover.startYear + ((22 : Nat) : Int) * scenarioAover.dataTimeStep)
      = some 0 ∧
    (Modeltime.set scenarioAover).getyr_to_per
        (scenarioAover.startYear + ((22 : Nat) : Int) * scenarioAover.dataTimeStep)
      = (0, false) :=
  ⟨(C10_silent_default_insert.1 scenarioAover 22 (by decide) (by decide)).1,
   (C10_silent_default_insert.1 scenarioAover 22 (by decide) (by decide)).2.2⟩

/-- Pointwise equality of the walk map at a fixed key is preserved by
walking the same periods from states with equal `baseyr`. -/
lemma walk_foldl_eq_at (pts : List Int) :
    ∀ (t a : Nat) (st st' : Int × (Int → Option Int) × List Int) (y : Int),
    st.1 = st'.1 → st.2.1 y = st'.2.1 y →
    ((List.range' a t).foldl (walkStep pts) st).2.1 y
      = ((List.range' a t).foldl (walkStep pts) st').2.1 y := by
  intro t
  induction t with
  | zero => intro a st st' y _ hmap; simpa using hmap
  | succ t ih =>
      intro a st st' y hB hmap
      rw [List.range'_succ, List.foldl_cons, List.foldl_cons]
      refine ih (a + 1) (walkStep pts st a) (walkStep pts st' a) y ?_ ?_
      · rw [walkStep_fst, walkStep_fst, hB]
      · by_cases hk : y = st.1 + pts.getD a 0
        · rw [hk, walkStep_map_key]
          have hk' : st.1 + pts.getD a 0 = st'.1 + pts.getD a 0 := by rw [hB]
          rw [hk', walkStep_map_key]
        · by_cases hmid : st.1 < y ∧ y < st.1 + pts.getD a 0
          · rw [walkStep_map_between pts st a y hmid.1 hmid.2,
              walkStep_map_between pts st' a y (hB ▸ hmid.1) (hB ▸ hmid.2)]
          · have hout : y ≤ st.1 ∨ st.1 + pts.getD a 0 ≤ y := by omega
            rw [walkStep_map_out pts st a y hk hout,
              walkStep_map_out pts st' a y (by rw [← hB]; exact hk)
                (by rw [← hB]; exact hout)]
            exact hmap

/-- Walking the same periods from two states with equal `baseyr`: at every
key, either the two resulting maps agree (the walk wrote the key, with the
same value on both sides), or both maps still hold their initial values. -/
lemma walk_foldl_cases (pts : List Int) :
    ∀ (t a : Nat) (st st' : Int × (Int → Option Int) × List Int) (y : Int),
    st.1 = st'.1 →
    (((List.range' a t).foldl (walkStep pts) st).2.1 y
       = ((List.range' a t).foldl (walkStep pts) st').2.1 y) ∨
    ((((List.range' a t).foldl (walkStep pts) st).2.1 y = st.2.1 y) ∧
     (((List.range' a t).foldl (walkStep pts) st').2.1 y = st'.2.1 y)) := by
  intro t
  induction t with
  | zero =>
      intro a st st' y _
      right
      constructor <;> simp
  | succ t ih =>
      intro a st st' y hB
      rw [List.range'_succ, List.foldl_cons, List.foldl_cons]
      have hB' : (walkStep pts st a).1 = (walkStep pts st' a).1 := by
        rw [walkStep_fst, walkStep_fst, hB]
      by_cases hk : y = st.1 + pts.getD a 0
      · left
        refine walk_foldl_eq_at pts t (a + 1) _ _ y hB' ?_
        rw [hk, walkStep_map_key]
        have hk' : st.1 + pts.getD a 0 = st'.1 + pts.getD a 0 := by rw [hB]
        rw [hk', walkStep_map_key]
      · by_cases hmid : st.1 < y ∧ y < st.1 + pts.getD a 0
        · left
          refine walk_foldl_eq_at pts t (a + 1) _ _ y hB' ?_
          rw [walkStep_map_between pts st a y hmid.1 hmid.2,
            walkStep_map_between pts st' a y (hB ▸ hmid.1) (hB ▸ hmid.2)]
        · have hout : y ≤ st.1 ∨ st.1 + pts.getD a 0 ≤ y := by omega
          have hw : (walkStep pts st a).2.1 y = st.2.1 y :=
            walkStep_map_out pts st a y hk hout
          have hw' : (walkStep pts st' a).2.1 y = st'.2.1 y :=
            walkStep_map_out pts st' a y (by rw [← hB]; exact hk)
              (by rw [← hB]; exact hout)
          rcases ih (a + 1) (walkStep pts st a) (walkStep pts st' a) y hB'
            with hcase | ⟨hc1, hc2⟩
          · left
            exact hcase
          · right
            exact ⟨by rw [hc1, hw], by rw [hc2, hw']⟩

/-- C9, confirmed.  Invoking `Modeltime::set` a second time (the
configuration scalars are untouched by `set`) reproduces every piece of
derived state: the six era counts, `maxPeriod`, `maxDataPeriod`,
`periodToTimeStep`, `modelPeriodToYear`, `yearToModelPeriod` (as a map),
`dataOffset` and `dataPeriodToModelPeriod`.  (The only re-run effect is on
the external log, which is not derived state.) -/
theorem C9_idempotent (s : Modeltime) :
    ((s.set).set).numberOfPeriods1 = (s.set).numberOfPeriods1 ∧
    ((s.set).set).numberOfPeriods1a = (s.set).numberOfPeriods1a ∧
    ((s.set).set).numberOfPeriods2 = (s.set).numberOfPeriods2 ∧
    ((s.set).set).numberOfPeriods2a = (s.set).numberOfPeriods2a ∧
    ((s.set).set).numberOfPeriods3 = (s.set).numberOfPeriods3 ∧
    ((s.set).set).numberOfPeriods3a = (s.set).numberOfPeriods3a ∧
    ((s.set).set).maxPeriod = (s.set).maxPeriod ∧
    ((s.set).set).maxDataPeriod = (s.set).maxDataPeriod ∧
    ((s.set).set).periodToTimeStep = (s.set).periodToTimeStep ∧
    ((s.set).set).modelPeriodToYear = (s.set).modelPeriodToYear ∧
    ((s.set).set).yearToModelPeriod = (s.set).yearToModelPeriod ∧
    ((s.set).set).dataOffset = (s.set).dataOffset ∧
    ((s.set).set).dataPeriodToModelPeriod = (s.set).dataPeriodToModelPeriod := by
  have hwalk1 : ((s.set).walkC) = (List.range' 1 s.KC).foldl (walkStep s.ptsC)
      (s.startYear, mapInsert ((s.set).yearToModelPeriod) s.startYear 0,
        [s.startYear]) := rfl
  have hwalk0 : (s.walkC) = (List.range' 1 s.KC).foldl (walkStep s.ptsC)
      (s.startYear, mapInsert (s.yearToModelPeriod) s.startYear 0,
        [s.startYear]) := rfl
  have hpoint : ∀ y : Int, ((s.set).walkC).2.1 y = (s.walkC).2.1 y ∨
      ((((s.set).walkC).2.1 y = mapInsert ((s.set).yearToModelPeriod) s.startYear 0 y) ∧
       ((s.walkC).2.1 y = mapInsert (s.yearToModelPeriod) s.startYear 0 y)) := by
    intro y
    rw [hwalk1, hwalk0]
    exact walk_foldl_cases s.ptsC s.KC 1
      (s.startYear, mapInsert ((s.set).yearToModelPeriod) s.startYear 0, [s.startYear])
      (s.startYear, mapInsert (s.yearToModelPeriod) s.startYear 0, [s.startYear]) y rfl
  have hM1 : ∀ y : Int, (s.set).yearToModelPeriod y
      = match (s.walkC).2.1 y with
        | some v => some v
        | none => if y ∈ Modeltime.dataKeys s.startYear s.dataTimeStep
            (s.maxDataPeriodC).toNat then some 0 else none :=
    fun y => s.set_yearToModelPeriod_eq y
  have hM2 : ∀ y : Int, ((s.set).set).yearToModelPeriod y
      = match ((s.set).walkC).2.1 y with
        | some v => some v
        | none => if y ∈ Modeltime.dataKeys s.startYear s.dataTimeStep
            (s.maxDataPeriodC).toNat then some 0 else none :=
    fun y => (s.set).set_yearToModelPeriod_eq y
  have hmap : ((s.set).set).yearToModelPeriod = (s.set).yearToModelPeriod := by
    funext y
    rw [hM2 y]
    rcases hpoint y with heq | ⟨h1, h0⟩
    · rw [heq, ← hM1 y]
    · by_cases hsy : y = s.startYear
      · subst hsy
        have e1 : mapInsert ((s.set).yearToModelPeriod) s.startYear 0 s.startYear
            = some 0 := by simp [mapInsert]
        have e0 : mapInsert (s.yearToModelPeriod) s.startYear 0 s.startYear
            = some 0 := by simp [mapInsert]
        rw [h1, e1, hM1 s.startYear, h0, e0]
      · rw [h1]
        simp only [mapInsert]
        rw [if_neg hsy, hM1 y, h0]
        simp only [mapInsert]
        rw [if_neg hsy]
        cases hg : s.yearToModelPeriod y with
        | some v => rfl
        | none =>
            by_cases hmem : y ∈ Modeltime.dataKeys s.startYear s.dataTimeStep
                (s.maxDataPeriodC).toNat
            · rw [if_pos hmem]
            · rw [if_neg hmem]
  have hval : ∀ i ∈ List.range (s.maxDataPeriodC).toNat,
      (((s.set).walkC).2.1 (s.startYear + (i : Int) * s.dataTimeStep)).getD 0
        = ((s.walkC).2.1 (s.startYear + (i : Int) * s.dataTimeStep)).getD 0 := by
    intro i hi
    rcases hpoint (s.startYear + (i : Int) * s.dataTimeStep) with heq | ⟨h1, h0⟩
    · rw [heq]
    · by_cases hsy : s.startYear + (i : Int) * s.dataTimeStep = s.startYear
      · rw [h1, h0]
        simp only [mapInsert]
        rw [if_pos hsy, if_pos hsy]
      · rw [h1, h0]
        simp only [mapInsert]
        rw [if_neg hsy, if_neg hsy, hM1 (s.startYear + (i : Int) * s.dataTimeStep), h0]
        simp only [mapInsert]
        rw [if_neg hsy]
        have hmem : (s.startYear + (i : Int) * s.dataTimeStep)
            ∈ Modeltime.dataKeys s.startYear s.dataTimeStep (s.maxDataPeriodC).toNat := by
          unfold Modeltime.dataKeys
          exact List.mem_map.2 ⟨i, hi, rfl⟩
        cases hg : s.yearToModelPeriod (s.startYear + (i : Int) * s.dataTimeStep) with
        | some v => rfl
        | none =>
            rw [if_pos hmem]
            rfl
  have hd2m : ((s.set).set).dataPeriodToModelPeriod
      = (s.set).dataPeriodToModelPeriod := by
    rw [(s.set).set_dataPeriodToModelPeriod_eq, s.set_dataPeriodToModelPeriod_eq]
    exact List.map_congr_left (fun i hi => hval i hi)
  have hoff : ((s.set).set).dataOffset = (s.set).dataOffset := by
    rw [(s.set).set_dataOffset_eq, s.set_dataOffset_eq]
    exact List.map_congr_left (fun i hi =>
      congrArg (fun z : Int =>
        if s.maxDataPeriodC = s.maxPeriodC then 0
        else s.dataTimeStep.tdiv ((s.ptsC).getD z.toNat 0)) (hval i hi))
  have hm2y : ((s.set).set).modelPeriodToYear = (s.set).modelPeriodToYear := by
    rw [(s.set).set_modelPeriodToYear, s.set_modelPeriodToYear,
      (s.set).walkC_m2y, s.walkC_m2y]
    rfl
  exact ⟨rfl, rfl, rfl, rfl, rfl, rfl, rfl, rfl, rfl, hm2y, hmap, hoff, hd2m⟩
